import Mathlib

/-!
Shallow embedding of `src/server.js` (a Telegram webhook-mode bot server that
relays job descriptions to a resume backend and relays completion callbacks
back to the user), together with proofs of the specification claims.

JavaScript values that flow through the handlers (body fields, chat ids,
file ids) are modelled by `JVal`; an absent field (JS `undefined`) is
`Option.none`.  Each HTTP handler is a pure function from its inputs to the
ordered list of observable actions it performs (platform sends, backend
calls, log lines) together with the HTTP response.  Fallibility of the
messaging client is modelled by an oracle `fail : Nat → Bool` consulted at
each platform call, indexed by the number of platform calls attempted so far
in the handler run: `fail n = true` means the n-th attempted call throws.
-/

/-- A JavaScript value as it appears in the JSON bodies handled by the
server: `null`, a string, or a number (integers suffice for this code). -/
inductive JVal where
  | jnull : JVal
  | jstr : String → JVal
  | jnum : Int → JVal
deriving DecidableEq, Repr

/-- JavaScript truthiness for the values we model: `null`, `""` and `0` are
falsy, everything else truthy. -/
def JVal.truthy : JVal → Bool
  | .jnull => false
  | .jstr s => !(s == "")
  | .jnum n => !(n == 0)

/-- Truthiness of a possibly-absent field: JS `undefined` is falsy. -/
def truthyOpt : Option JVal → Bool
  | none => false
  | some v => v.truthy

/-- String interpolation of a `JVal` as a JS template literal does it. -/
def JVal.jsToString : JVal → String
  | .jnull => "null"
  | .jstr s => s
  | .jnum n => toString n

/-- `v || null` : keep a truthy value, collapse anything falsy to `null`. -/
def orNull (v : Option JVal) : JVal :=
  if truthyOpt v then v.getD .jnull else .jnull

/-- Observable actions a handler run performs, in order. -/
inductive Act where
  | sendMessage (chatId : JVal) (text : String)
  | sendDocument (chatId : JVal) (file : JVal) (caption : JVal)
  | backendPost (userId : Int) (jd : String) (username : String) (chatId : Int)
  | processUpdate
  | logWarn (s : String)
  | logError (s : String)
  | logInfo (s : String)
deriving DecidableEq, Repr

/-- Platform (Telegram) calls: `bot.sendMessage` / `bot.sendDocument`. -/
def Act.isPlatformSend : Act → Bool
  | .sendMessage _ _ => true
  | .sendDocument _ _ _ => true
  | _ => false

/-- Outbound HTTP calls to the backend (`axios.post .../apply`). -/
def Act.isBackendCall : Act → Bool
  | .backendPost _ _ _ _ => true
  | _ => false

/-- Body of an HTTP response produced by a handler. -/
inductive RespBody where
  | noBody : RespBody
  | okTrue : RespBody
  | errMsg : String → RespBody
deriving DecidableEq, Repr

/-- An HTTP response: status code and body. -/
structure HttpResp where
  status : Nat
  body : RespBody
deriving DecidableEq, Repr

/-- Request body of `POST /resume-ready` (field names as in the source). -/
structure RRBody where
  userId : Option JVal
  tg_pdf_id : Option JVal
  pdf_url : Option JVal
  hrEmail : Option JVal
  hr_contact : Option JVal
  jobId : Option JVal
  status : Option JVal
deriving DecidableEq, Repr

/-- The empty `/resume-ready` body: every field absent. -/
def RRBody.empty : RRBody :=
  ⟨none, none, none, none, none, none, none⟩

/-- `const tgPdfId = body.tg_pdf_id || body.tg_pdf_id === 0 ? body.tg_pdf_id : null;`
JS operator precedence parses the condition as
`(body.tg_pdf_id || (body.tg_pdf_id === 0))`, so the number `0` survives the
parse (via the explicit `=== 0` case) while other falsy values become
`null`. -/
def parseTgPdfId (v : Option JVal) : JVal :=
  if truthyOpt v || v == some (JVal.jnum 0) then v.getD .jnull else .jnull

/-- `const hrEmail = body.hrEmail || body.hr_contact || null;` -/
def parseHrEmail (b : RRBody) : JVal :=
  if truthyOpt b.hrEmail then b.hrEmail.getD .jnull
  else if truthyOpt b.hr_contact then b.hr_contact.getD .jnull
  else .jnull

/-- `const status = body.status || 'completed';` -/
def parseStatus (b : RRBody) : JVal :=
  if truthyOpt b.status then b.status.getD .jnull else .jstr "completed"

/-- One step inside a `try { ... }` block: a platform call (which may throw,
per the `fail` oracle) or a log statement (which never throws). -/
inductive TryOp where
  | send (a : Act)
  | log (a : Act)
deriving DecidableEq, Repr

/-- The action a `TryOp` performs. -/
def TryOp.act : TryOp → Act
  | .send a => a
  | .log a => a

/-- Run the steps of a try-block in order, starting with `n` platform calls
already attempted in this handler run.  Returns the actions attempted (a
throwing call is still an attempted action) and whether a step threw; the
first throw aborts the rest of the block. -/
def runTry (fail : Nat → Bool) : List TryOp → Nat → List Act × Bool
  | [], _ => ([], false)
  | .log a :: rest, n =>
      let r := runTry fail rest n
      (a :: r.1, r.2)
  | .send a :: rest, n =>
      if fail n then ([a], true)
      else
        let r := runTry fail rest (n + 1)
        (a :: r.1, r.2)

/-- Caption of the document send in `/resume-ready`:
`hrEmail ? 'Your resume (HR Contact: ...)' : 'Your resume (generated).'` -/
def rrCaption (hrEmail : JVal) : JVal :=
  if hrEmail.truthy then
    .jstr ("Your resume (HR Contact: " ++ hrEmail.jsToString ++ ")")
  else .jstr "Your resume (generated)."

/-- Text of the failure notice sent when `status !== 'completed'`. -/
def rrFailText (jobId : JVal) : String :=
  "âŒ Resume generation failed for job "
    ++ (if jobId.truthy then jobId.jsToString else "")
    ++ ". Please try again or contact support."

/-- Apology sent when a completed payload carries no document reference. -/
def rrNoFileText : String :=
  "âš ï¸ Backend reported completion but did not provide a file."

/-- Generic delivery-failure notice sent from the catch block. -/
def rrDeliverFailText : String :=
  "âš ï¸ Failed to send generated resume to your chat. The team has been notified."

/-- The steps of the delivery try-block of `/resume-ready` for a completed
status: document send (by file id, else by URL, else apology message plus a
warning log), then the HR-contact follow-up if present, then the jobId
follow-up if present. -/
def rrTryOps (userId tgPdfId pdfUrl hrEmail jobId : JVal) : List TryOp :=
  (if tgPdfId.truthy then
      [.send (.sendDocument userId tgPdfId (rrCaption hrEmail))]
    else if pdfUrl.truthy then
      [.send (.sendDocument userId pdfUrl (rrCaption hrEmail))]
    else
      [.send (.sendMessage userId rrNoFileText),
       .log (.logWarn "resume-ready missing file for user")])
  ++ (if hrEmail.truthy then
        [.send (.sendMessage userId ("ðŸ”Ž HR Contact found: " ++ hrEmail.jsToString))]
      else [])
  ++ (if jobId.truthy then
        [.send (.sendMessage userId ("Job ID: " ++ jobId.jsToString))]
      else [])

/-- Handler of `POST /resume-ready` (src/server.js lines 236-307).
`secret` is `BACKEND_SECRET`, `key` the `x-api-key` header (absent = `none`),
`fail` the messaging-client failure oracle. -/
def resumeReady (secret : String) (key : Option String) (body : RRBody)
    (fail : Nat → Bool) : List Act × HttpResp :=
  let keyStr := key.getD ""
  if keyStr == "" || !(keyStr == secret) then
    ([.logWarn "Unauthorized resume-ready call"], ⟨403, .noBody⟩)
  else
    let userId := body.userId.getD .jnull
    let tgPdfId := parseTgPdfId body.tg_pdf_id
    let pdfUrl := orNull body.pdf_url
    let hrEmail := parseHrEmail body
    let status := parseStatus body
    let jobId := orNull body.jobId
    if !userId.truthy then
      ([.logWarn "resume-ready missing userId"], ⟨400, .errMsg "missing userId"⟩)
    else if !(status == JVal.jstr "completed") then
      -- failure notice sits in the outer try only: a throw here reaches the
      -- outermost catch and yields 500 internal error
      if fail 0 then
        ([.sendMessage userId (rrFailText jobId), .logError "Error in /resume-ready"],
         ⟨500, .errMsg "internal error"⟩)
      else
        ([.sendMessage userId (rrFailText jobId)], ⟨200, .okTrue⟩)
    else
      let r := runTry fail (rrTryOps userId tgPdfId pdfUrl hrEmail jobId) 0
      if r.2 then
        -- catch: log, best-effort notify the user (its own failure is
        -- swallowed: the attempt is recorded whatever the oracle says), 500
        (r.1 ++ [.logError "Error sending document to user",
                 .sendMessage userId rrDeliverFailText],
         ⟨500, .errMsg "failed to deliver resume"⟩)
      else
        (r.1, ⟨200, .okTrue⟩)

/-- Request body of `POST /admin/resend`. -/
structure ARBody where
  userId : Option JVal
  tgPdfId : Option JVal
  pdfUrl : Option JVal
  caption : Option JVal
deriving DecidableEq, Repr

/-- `caption || 'Resent resume'` -/
def arCaption (caption : Option JVal) : JVal :=
  if truthyOpt caption then caption.getD .jnull else .jstr "Resent resume"

/-- Handler of `POST /admin/resend` (src/server.js lines 312-333): auth, then
require `userId`, then exactly one document send preferring `tgPdfId` over
`pdfUrl` (400 if neither is truthy); a throwing send yields 500 with no
notification message to the user. -/
def adminResend (secret : String) (key : Option String) (body : ARBody)
    (fail : Nat → Bool) : List Act × HttpResp :=
  let keyStr := key.getD ""
  if keyStr == "" || !(keyStr == secret) then
    ([], ⟨403, .noBody⟩)
  else
    let userId := body.userId.getD .jnull
    if !userId.truthy then
      ([], ⟨400, .errMsg "missing userId"⟩)
    else if truthyOpt body.tgPdfId then
      let doc := Act.sendDocument userId (body.tgPdfId.getD .jnull) (arCaption body.caption)
      if fail 0 then ([doc, .logError "admin resend error"], ⟨500, .errMsg "failed"⟩)
      else ([doc], ⟨200, .okTrue⟩)
    else if truthyOpt body.pdfUrl then
      let doc := Act.sendDocument userId (body.pdfUrl.getD .jnull) (arCaption body.caption)
      if fail 0 then ([doc, .logError "admin resend error"], ⟨500, .errMsg "failed"⟩)
      else ([doc], ⟨200, .okTrue⟩)
    else
      ([], ⟨400, .errMsg "no file provided"⟩)

/-- Process the update: `bot.processUpdate(req.body)` then 200, or 500 if
processing throws (caught by the route's try/catch). -/
def tgProcess (processThrows : Bool) : List Act × HttpResp :=
  if processThrows then
    ([.processUpdate, .logError "Error processing /tg-webhook"], ⟨500, .noBody⟩)
  else
    ([.processUpdate], ⟨200, .noBody⟩)

/-- Handler of `POST /tg-webhook` (src/server.js lines 111-131).  `tgSecret`
is `TELEGRAM_WEBHOOK_SECRET` (the env default is `""`, i.e. unset); `header`
is the `x-telegram-bot-api-secret-token` header.  The secret check only runs
when the secret is configured (truthy). -/
def tgWebhook (tgSecret : String) (header : Option String)
    (processThrows : Bool) : List Act × HttpResp :=
  if !(tgSecret == "") then
    let secretHeader := header.getD ""
    if secretHeader == "" || !(secretHeader == tgSecret) then
      ([.logWarn "Invalid telegram webhook secret token"], ⟨401, .noBody⟩)
    else
      tgProcess processThrows
  else
    tgProcess processThrows

/-- An inbound Telegram message as the `bot.on('message')` handler sees it:
presence of `msg.from` / `msg.chat`, the ids, and the optional text. -/
structure TgMsg where
  hasFrom : Bool
  hasChat : Bool
  chatId : Int
  fromId : Int
  username : Option String
  text : Option String
deriving DecidableEq, Repr

/-- Fixed acknowledgement sent once a valid job description is identified. -/
def ackText : String :=
  "âœ… Received the Job Description. Generating an ATS-optimized resume â€” this may take ~20â€“40 seconds. I will send it here once ready."

/-- Instruction prompt for empty / non-text messages. -/
def promptText : String :=
  "Please send the Job Description text (paste JD or use /apply <JD>)."

/-- Usage hint for a bare `/apply` with no job description. -/
def usageText : String :=
  "Usage: /apply <paste the job description here>"

/-- Notice sent when the backend submission fails. -/
def submitFailText : String :=
  "âš ï¸ Failed to submit the job to the backend. Please try again later."

/-- JS `String.prototype.trim`: strip leading and trailing whitespace.
(Defined over the character list so that it reduces inside the kernel;
`String.trim` itself is defined by well-founded recursion on byte
positions and does not.) -/
def jsTrim (s : String) : String :=
  ⟨((s.data.dropWhile Char.isWhitespace).reverse.dropWhile
      Char.isWhitespace).reverse⟩

/-- JS `String.prototype.startsWith` (list-based for kernel reduction). -/
def jsStartsWith (s pat : String) : Bool :=
  pat.data.isPrefixOf s.data

/-- `text.replace('/apply', '').trim()` — JS `replace` with a string pattern
replaces the first occurrence only; under the guard `text.startsWith('/apply')`
that occurrence is the 6-character prefix, so it amounts to dropping the
first 6 characters. -/
def stripApply (text : String) : String :=
  jsTrim ⟨text.data.drop 6⟩

/-- Handler of the `bot.on('message')` event (src/server.js lines 144-216).
`fail` is the messaging-client failure oracle (indexed by platform calls
attempted in this run), `backendFails` whether the detached backend
submission errors.  Returns the ordered trace of actions; the acknowledgement
is awaited before the detached submission block runs, so it precedes the
backend call in the trace. -/
def onMessage (m : TgMsg) (fail : Nat → Bool) (backendFails : Bool) :
    List Act :=
  if !m.hasFrom || !m.hasChat then []
  else
    let chatId := JVal.jnum m.chatId
    let userId := m.fromId
    let username := m.username.getD ""
    let text := jsTrim (m.text.getD "")
    if text == "" then
      if fail 0 then [.sendMessage chatId promptText, .logError "Error in message handler"]
      else [.sendMessage chatId promptText]
    else
      let jdText := if jsStartsWith text "/apply" then stripApply text else text
      if jsStartsWith text "/apply" && jdText == "" then
        if fail 0 then [.sendMessage chatId usageText, .logError "Error in message handler"]
        else [.sendMessage chatId usageText]
      else
        if fail 0 then [.sendMessage chatId ackText, .logError "Error in message handler"]
        else
          [.sendMessage chatId ackText,
           .backendPost userId jdText username m.chatId]
          ++ (if backendFails then
                -- catch inside the detached block: log, best-effort notice
                -- to the chat, its own failure swallowed
                [.logError "Error sending JD to backend",
                 .sendMessage chatId submitFailText]
              else
                [.logInfo "Backend response logged"])

/-- Actions that are platform sends, in order. -/
def platformSends (t : List Act) : List Act :=
  t.filter Act.isPlatformSend

/-- Count of backend calls in a trace. -/
def backendCalls (t : List Act) : Nat :=
  (t.filter Act.isBackendCall).length

/-- Recognizer for the acknowledgement message. -/
def Act.isAck : Act → Bool
  | .sendMessage _ t => t == ackText
  | _ => false

/-- Recognizer for the resume-generation-failed notice of `/resume-ready`. -/
def Act.isFailNotice : Act → Bool
  | .sendMessage _ t => jsStartsWith t "âŒ Resume generation failed for job "
  | _ => false

/-- Recognizer for the missing-file apology of `/resume-ready`. -/
def Act.isApology : Act → Bool
  | .sendMessage _ t => t == rrNoFileText
  | _ => false

/-- Recognizer for document sends. -/
def Act.isDocSend : Act → Bool
  | .sendDocument _ _ _ => true
  | _ => false

/-! ## Helper lemmas -/

/-- With a never-failing messaging client a try-block performs all its steps
in order and does not throw. -/
theorem runTry_noFail (fail : Nat → Bool) (h : ∀ k, fail k = false)
    (ops : List TryOp) (n : Nat) :
    runTry fail ops n = (ops.map TryOp.act, false) := by
  induction ops generalizing n with
  | nil => rfl
  | cons op rest ih =>
    cases op with
    | log a => simp [runTry, ih, TryOp.act]
    | send a => simp [runTry, h, ih, TryOp.act]

/-- Two strings whose first characters differ are distinct, whatever is
appended to the first one. -/
theorem append_ne_of_firstChar (a b s : String) (ca cb : Char)
    (ha : a.data.head? = some ca) (hb : b.data.head? = some cb)
    (hne : ca ≠ cb) : (a ++ s) ≠ b := by
  intro h
  have h2 : (a ++ s).data.head? = b.data.head? := by rw [h]
  rw [String.data_append] at h2
  cases hd : a.data with
  | nil => rw [hd] at ha; exact absurd ha (by simp)
  | cons c l =>
      rw [hd] at h2
      simp at h2
      have hc : c = ca := by
        have h3 := congrArg List.head? hd
        rw [ha] at h3
        simpa using h3.symm
      rw [hb] at h2
      rw [hc] at h2
      exact hne (Option.some.inj h2)

/-- The parsed `tgPdfId` is truthy exactly when the raw field is: the only
value the `=== 0` case rescues is itself falsy. -/
theorem parseTgPdfId_truthy (v : Option JVal) :
    (parseTgPdfId v).truthy = truthyOpt v := by
  cases v with
  | none => rfl
  | some x =>
      cases x with
      | jnull => rfl
      | jstr s =>
          by_cases hs : s = "" <;>
            simp [parseTgPdfId, truthyOpt, JVal.truthy, hs]
      | jnum n =>
          by_cases hn : n = 0 <;>
            simp [parseTgPdfId, truthyOpt, JVal.truthy, hn]

/-! ## Claims -/

/-- C1: a `/resume-ready` request with the correct key, a present userId,
status `"completed"`, a file id, an hrEmail and a jobId performs exactly
three platform sends, in order: the document (caption containing the
hrEmail), a text message containing the hrEmail, and a text message
`Job ID: <jobId>`; the response is 200 `{ok:true}`. -/
theorem rr_completed_full_delivery (secret k x h j : String) (uid : JVal)
    (hk : k ≠ "") (hks : k = secret) (hu : uid.truthy = true)
    (hx : x ≠ "") (hh : h ≠ "") (hj : j ≠ "")
    (fail : Nat → Bool) (hf : ∀ n, fail n = false) :
    resumeReady secret (some k)
        ⟨some uid, some (.jstr x), none, some (.jstr h), none,
          some (.jstr j), some (.jstr "completed")⟩ fail =
      ([.sendDocument uid (.jstr x)
          (.jstr ("Your resume (HR Contact: " ++ h ++ ")")),
        .sendMessage uid ("ðŸ”Ž HR Contact found: " ++ h),
        .sendMessage uid ("Job ID: " ++ j)],
       ⟨200, .okTrue⟩) ∧
    (∃ p s, ("Your resume (HR Contact: " ++ h ++ ")") = p ++ h ++ s) ∧
    (∃ p s, ("ðŸ”Ž HR Contact found: " ++ h) = p ++ h ++ s) := by
  subst hks
  refine ⟨?_, ⟨"Your resume (HR Contact: ", ")", rfl⟩,
    ⟨"ðŸ”Ž HR Contact found: ", "", by simp⟩⟩
  have htg : (JVal.jstr x).truthy = true := by simp [JVal.truthy, hx]
  have hhr : (JVal.jstr h).truthy = true := by simp [JVal.truthy, hh]
  have hjd : (JVal.jstr j).truthy = true := by simp [JVal.truthy, hj]
  have hcpl : (JVal.jstr "completed").truthy = true := by decide
  simp [resumeReady, parseTgPdfId, parseHrEmail, parseStatus, orNull,
    truthyOpt, JVal.jsToString, rrTryOps, rrCaption,
    TryOp.act, runTry_noFail fail hf, hk, hu, htg, hhr, hjd, hcpl]

/-- Witness for C1 at a concrete request. -/
theorem rr_completed_full_delivery_witness :
    resumeReady "s" (some "s")
        ⟨some (.jnum 5), some (.jstr "X"), none, some (.jstr "h@x.com"),
          none, some (.jstr "J1"), some (.jstr "completed")⟩
        (fun _ => false) =
      ([.sendDocument (.jnum 5) (.jstr "X")
          (.jstr ("Your resume (HR Contact: " ++ "h@x.com" ++ ")")),
        .sendMessage (.jnum 5) ("ðŸ”Ž HR Contact found: " ++ "h@x.com"),
        .sendMessage (.jnum 5) ("Job ID: " ++ "J1")],
       ⟨200, .okTrue⟩) ∧
    (∃ p s, ("Your resume (HR Contact: " ++ "h@x.com" ++ ")") = p ++ "h@x.com" ++ s) ∧
    (∃ p s, ("ðŸ”Ž HR Contact found: " ++ "h@x.com") = p ++ "h@x.com" ++ s) :=
  rr_completed_full_delivery "s" "s" "X" "h@x.com" "J1" (.jnum 5)
    (by decide) rfl (by decide) (by decide) (by decide) (by decide)
    (fun _ => false) (fun _ => rfl)

/-- C2: on a completed `/resume-ready` delivery, the first throw anywhere in
the try-block — in the document send (call 0), the HR-contact follow-up
(call 1) or the jobId follow-up (call 2) — leads to the catch: an error is
logged, the generic delivery-failure notice is attempted (its own outcome,
decided by `fail` at the next index, is ignored), and the response is 500
`{error:"failed to deliver resume"}`. -/
theorem rr_delivery_error_500 (secret k : String) (uid tg hr jid : JVal)
    (hk : k ≠ "") (hks : k = secret) (hu : uid.truthy = true)
    (htg : tg.truthy = true) (hhr : hr.truthy = true)
    (hjid : jid.truthy = true) (fail : Nat → Bool)
    (hfail : fail 0 = true ∨ fail 1 = true ∨ fail 2 = true) :
    (resumeReady secret (some k)
        ⟨some uid, some tg, none, some hr, none, some jid,
          some (.jstr "completed")⟩ fail).2 =
      ⟨500, .errMsg "failed to deliver resume"⟩ ∧
    Act.sendMessage uid rrDeliverFailText ∈
      (resumeReady secret (some k)
        ⟨some uid, some tg, none, some hr, none, some jid,
          some (.jstr "completed")⟩ fail).1 ∧
    Act.logError "Error sending document to user" ∈
      (resumeReady secret (some k)
        ⟨some uid, some tg, none, some hr, none, some jid,
          some (.jstr "completed")⟩ fail).1 := by
  subst hks
  have hcpl : (JVal.jstr "completed").truthy = true := by decide
  cases h0 : fail 0 with
  | true =>
      simp [resumeReady, parseTgPdfId, parseHrEmail, parseStatus, orNull,
        truthyOpt, rrTryOps, runTry, hk, hu, htg, hhr, hjid, hcpl, h0]
  | false =>
      cases h1 : fail 1 with
      | true =>
          simp [resumeReady, parseTgPdfId, parseHrEmail, parseStatus, orNull,
            truthyOpt, rrTryOps, runTry, hk, hu, htg, hhr, hjid, hcpl, h0, h1]
      | false =>
          have h2 : fail 2 = true := by
            rcases hfail with h | h | h
            · rw [h0] at h; exact absurd h (by simp)
            · rw [h1] at h; exact absurd h (by simp)
            · exact h
          simp [resumeReady, parseTgPdfId, parseHrEmail, parseStatus, orNull,
            truthyOpt, rrTryOps, runTry, hk, hu, htg, hhr, hjid, hcpl,
            h0, h1, h2]

/-- Witness for C2: the second send (the HR-contact follow-up) throws after
a successful document send. -/
theorem rr_delivery_error_500_witness :
    (resumeReady "s" (some "s")
        ⟨some (.jnum 1), some (.jstr "X"), none, some (.jstr "h"), none,
          some (.jstr "J"), some (.jstr "completed")⟩
        (fun n => decide (n = 1))).2 =
      ⟨500, .errMsg "failed to deliver resume"⟩ ∧
    Act.sendMessage (.jnum 1) rrDeliverFailText ∈
      (resumeReady "s" (some "s")
        ⟨some (.jnum 1), some (.jstr "X"), none, some (.jstr "h"), none,
          some (.jstr "J"), some (.jstr "completed")⟩
        (fun n => decide (n = 1))).1 ∧
    Act.logError "Error sending document to user" ∈
      (resumeReady "s" (some "s")
        ⟨some (.jnum 1), some (.jstr "X"), none, some (.jstr "h"), none,
          some (.jstr "J"), some (.jstr "completed")⟩
        (fun n => decide (n = 1))).1 :=
  rr_delivery_error_500 "s" "s" (.jnum 1) (.jstr "X") (.jstr "h") (.jstr "J")
    (by decide) rfl (by decide) (by decide) (by decide) (by decide)
    (fun n => decide (n = 1)) (Or.inr (Or.inl (by decide)))


/-- C3 counterexample: the message `"/apply"` has a sender, a chat and text
that is non-empty after trimming, yet the handler sends zero acknowledgement
messages (it sends the usage hint instead) and makes no backend call. -/
theorem onMessage_bare_apply_no_ack :
    (⟨true, true, 1, 2, none, some "/apply"⟩ : TgMsg).hasFrom = true ∧
    (⟨true, true, 1, 2, none, some "/apply"⟩ : TgMsg).hasChat = true ∧
    (jsTrim ((⟨true, true, 1, 2, none, some "/apply"⟩ : TgMsg).text.getD "") ≠ "") ∧
    (onMessage ⟨true, true, 1, 2, none, some "/apply"⟩ (fun _ => false)
        false).countP (fun a => a.isAck) = 0 ∧
    backendCalls (onMessage ⟨true, true, 1, 2, none, some "/apply"⟩
        (fun _ => false) false) = 0 := by
  exact ⟨rfl, rfl, by decide, by decide, by decide⟩

/-- C3 amended: for a message with sender and chat whose trimmed text is
non-empty and — when it starts with `/apply` — still has a non-empty job
description after stripping the prefix, the trace starts with the single
acknowledgement send (so it precedes any backend call), no further
acknowledgement occurs, and if the acknowledgement send itself throws no
backend call happens at all. -/
theorem onMessage_ack_before_backend (m : TgMsg) (fail : Nat → Bool)
    (bf : Bool) (hfrom : m.hasFrom = true) (hchat : m.hasChat = true)
    (htext : jsTrim (m.text.getD "") ≠ "")
    (happly : jsStartsWith (jsTrim (m.text.getD "")) "/apply" = true →
      stripApply (jsTrim (m.text.getD "")) ≠ "") :
    ∃ rest, onMessage m fail bf =
        Act.sendMessage (.jnum m.chatId) ackText :: rest ∧
      rest.countP (fun a => a.isAck) = 0 ∧
      (fail 0 = true → rest.countP (fun a => a.isBackendCall) = 0) := by
  have hjd : (jsStartsWith (jsTrim (m.text.getD "")) "/apply" &&
      (if jsStartsWith (jsTrim (m.text.getD "")) "/apply" then
        stripApply (jsTrim (m.text.getD "")) else jsTrim (m.text.getD "")) == "")
      = false := by
    cases hs : jsStartsWith (jsTrim (m.text.getD "")) "/apply" with
    | true => simp [hs, happly hs]
    | false => simp [hs]
  cases h0 : fail 0 with
  | true =>
      refine ⟨[.logError "Error in message handler"], ?_, by simp [Act.isAck],
        fun _ => by simp [Act.isBackendCall]⟩
      simp only [onMessage, hfrom, hchat, h0]
      simp [htext, hjd]
  | false =>
      cases bf with
      | true =>
          refine ⟨[.backendPost m.fromId
              (if jsStartsWith (jsTrim (m.text.getD "")) "/apply" then
                stripApply (jsTrim (m.text.getD "")) else jsTrim (m.text.getD ""))
              (m.username.getD "") m.chatId,
            .logError "Error sending JD to backend",
            .sendMessage (.jnum m.chatId) submitFailText], ?_, ?_,
            fun hcon => absurd hcon (by simp)⟩
          · simp only [onMessage, hfrom, hchat, h0]
            simp [htext, hjd]
          · simp +decide [Act.isAck, submitFailText, ackText]
      | false =>
          refine ⟨[.backendPost m.fromId
              (if jsStartsWith (jsTrim (m.text.getD "")) "/apply" then
                stripApply (jsTrim (m.text.getD "")) else jsTrim (m.text.getD ""))
              (m.username.getD "") m.chatId,
            .logInfo "Backend response logged"], ?_, by simp [Act.isAck],
            fun hcon => absurd hcon (by simp)⟩
          simp only [onMessage, hfrom, hchat, h0]
          simp [htext, hjd]

/-- Witness for the amended C3 at a concrete message. -/
theorem onMessage_ack_before_backend_witness :
    ∃ rest, onMessage ⟨true, true, 1, 2, none, some "/apply write tests"⟩
        (fun _ => false) false =
        Act.sendMessage (.jnum 1) ackText :: rest ∧
      rest.countP (fun a => a.isAck) = 0 ∧
      ((fun (_ : Nat) => false) 0 = true →
        rest.countP (fun a => a.isBackendCall) = 0) :=
  onMessage_ack_before_backend ⟨true, true, 1, 2, none, some "/apply write tests"⟩
    (fun _ => false) false rfl rfl (by decide) (fun _ => by decide)

/-- A truthy optional value stays truthy after `getD jnull`. -/
theorem getD_truthy (v : Option JVal) (h : truthyOpt v = true) :
    (v.getD .jnull).truthy = true := by
  cases v with
  | none => exact absurd h (by simp [truthyOpt])
  | some x => simpa [truthyOpt] using h

/-- `orNull` preserves truthiness. -/
theorem orNull_truthy (v : Option JVal) :
    (orNull v).truthy = truthyOpt v := by
  cases htv : truthyOpt v with
  | true => simp [orNull, htv, getD_truthy v htv]
  | false => simp [orNull, htv, JVal.truthy]

/-- The HR-contact follow-up text is never the missing-file apology. -/
theorem hrMsg_ne_noFile (s : String) :
    (("ðŸ”Ž HR Contact found: " ++ s) == rrNoFileText) = false := by
  simp [append_ne_of_firstChar "ðŸ”Ž HR Contact found: " rrNoFileText s
    'ð' 'â' rfl rfl (by decide)]

/-- The jobId follow-up text is never the missing-file apology. -/
theorem jobMsg_ne_noFile (s : String) :
    (("Job ID: " ++ s) == rrNoFileText) = false := by
  simp [append_ne_of_firstChar "Job ID: " rrNoFileText s
    'J' 'â' rfl rfl (by decide)]

/-- C4: on a completed `/resume-ready` request the document reference is
resolved with strict priority — a truthy `tg_pdf_id` is sent as the
document; otherwise a truthy `pdf_url` is sent as the document; otherwise no
document is sent at all, exactly one apology message goes to the user, a
warning is logged, and the response is still 200 `{ok:true}`. -/
theorem rr_document_priority (secret k : String) (uid : JVal) (b : RRBody)
    (hk : k ≠ "") (hks : k = secret)
    (hbu : b.userId = some uid) (hu : uid.truthy = true)
    (hst : b.status = some (.jstr "completed"))
    (fail : Nat → Bool) (hf : ∀ n, fail n = false) :
    (truthyOpt b.tg_pdf_id = true →
      (resumeReady secret (some k) b fail).1.head? =
        some (.sendDocument uid (parseTgPdfId b.tg_pdf_id)
          (rrCaption (parseHrEmail b))) ∧
      (resumeReady secret (some k) b fail).2 = ⟨200, .okTrue⟩) ∧
    (truthyOpt b.tg_pdf_id = false → truthyOpt b.pdf_url = true →
      (resumeReady secret (some k) b fail).1.head? =
        some (.sendDocument uid (orNull b.pdf_url)
          (rrCaption (parseHrEmail b))) ∧
      (resumeReady secret (some k) b fail).2 = ⟨200, .okTrue⟩) ∧
    (truthyOpt b.tg_pdf_id = false → truthyOpt b.pdf_url = false →
      (resumeReady secret (some k) b fail).1.countP
          (fun a => a.isDocSend) = 0 ∧
      (resumeReady secret (some k) b fail).1.countP
          (fun a => a.isApology) = 1 ∧
      Act.logWarn "resume-ready missing file for user" ∈
        (resumeReady secret (some k) b fail).1 ∧
      (resumeReady secret (some k) b fail).2 = ⟨200, .okTrue⟩) := by
  subst hks
  obtain ⟨bu, btg, burl, bhr, bhrc, bjid, bst⟩ := b
  simp only at hbu hst
  subst hbu
  subst hst
  have hcpl : truthyOpt (some (JVal.jstr "completed")) = true := by decide
  refine ⟨fun h1 => ?_, fun h1 h2 => ?_, fun h1 h2 => ?_⟩
  · constructor <;>
      simp [resumeReady, parseStatus, hcpl, hk, hu,
        runTry_noFail fail hf, rrTryOps, parseTgPdfId_truthy, h1,
        TryOp.act]
  · constructor <;>
      simp [resumeReady, parseStatus, hcpl, hk, hu,
        runTry_noFail fail hf, rrTryOps, parseTgPdfId_truthy,
        orNull_truthy, h1, h2, TryOp.act]
  · refine ⟨?_, ?_, ?_, ?_⟩ <;>
      · simp [resumeReady, parseStatus, hcpl, hk, hu,
          runTry_noFail fail hf, rrTryOps, parseTgPdfId_truthy,
          orNull_truthy, h1, h2, TryOp.act, parseHrEmail,
          Act.isDocSend, Act.isApology]
        try
          exact ⟨fun _ => append_ne_of_firstChar _ _ _ 'ð' 'â' rfl rfl (by decide),
                 fun _ => append_ne_of_firstChar _ _ _ 'J' 'â' rfl rfl (by decide)⟩

/-- Witness for C4 at a concrete completed request with no file reference. -/
theorem rr_document_priority_witness :
    (resumeReady "s" (some "s")
        ⟨some (.jnum 7), none, none, none, none, none,
          some (.jstr "completed")⟩ (fun _ => false)).1.countP
        (fun a => a.isDocSend) = 0 ∧
    (resumeReady "s" (some "s")
        ⟨some (.jnum 7), none, none, none, none, none,
          some (.jstr "completed")⟩ (fun _ => false)).1.countP
        (fun a => a.isApology) = 1 ∧
    Act.logWarn "resume-ready missing file for user" ∈
      (resumeReady "s" (some "s")
        ⟨some (.jnum 7), none, none, none, none, none,
          some (.jstr "completed")⟩ (fun _ => false)).1 ∧
    (resumeReady "s" (some "s")
        ⟨some (.jnum 7), none, none, none, none, none,
          some (.jstr "completed")⟩ (fun _ => false)).2 = ⟨200, .okTrue⟩ :=
  (rr_document_priority "s" "s" (.jnum 7)
      ⟨some (.jnum 7), none, none, none, none, none, some (.jstr "completed")⟩
      (by decide) rfl rfl (by decide) rfl (fun _ => false)
      (fun _ => rfl)).2.2 rfl rfl

/-- C5 counterexample: the request `{userId:1, status:""}` carries a status
value different from `"completed"`, yet the handler sends zero failure
messages — the falsy status is defaulted to `"completed"` and the completed
path runs (here: the missing-file apology), responding 200. -/
theorem rr_falsy_status_not_failure :
    (JVal.jstr "" ≠ JVal.jstr "completed") ∧
    (resumeReady "s" (some "s")
        ⟨some (.jnum 1), none, none, none, none, none, some (.jstr "")⟩
        (fun _ => false)).1.countP (fun a => a.isFailNotice) = 0 ∧
    (resumeReady "s" (some "s")
        ⟨some (.jnum 1), none, none, none, none, none, some (.jstr "")⟩
        (fun _ => false)).1.countP (fun a => a.isApology) = 1 ∧
    (resumeReady "s" (some "s")
        ⟨some (.jnum 1), none, none, none, none, none, some (.jstr "")⟩
        (fun _ => false)).2 = ⟨200, .okTrue⟩ := by
  exact ⟨by decide, by decide, by decide, by decide⟩

/-- C5 amended: with the correct key, a truthy userId and a *truthy* status
value other than `"completed"`, the handler performs exactly one platform
send — the failure message, which names the jobId when present — and
responds 200 `{ok:true}`; and a request with no status field at all behaves
exactly as one with status `"completed"` (as does any falsy status value,
per the counterexample). -/
theorem rr_noncompleted_failure_notice (secret k : String) (uid sv : JVal)
    (b : RRBody) (hk : k ≠ "") (hks : k = secret)
    (hbu : b.userId = some uid) (hu : uid.truthy = true)
    (hst : b.status = some sv) (hsv : sv.truthy = true)
    (hsc : sv ≠ .jstr "completed")
    (fail : Nat → Bool) (hf0 : fail 0 = false) :
    resumeReady secret (some k) b fail =
      ([.sendMessage uid (rrFailText (orNull b.jobId))], ⟨200, .okTrue⟩) ∧
    (truthyOpt b.jobId = true →
      ∃ p s, rrFailText (orNull b.jobId) =
        p ++ (orNull b.jobId).jsToString ++ s) ∧
    (∀ b2 : RRBody,
      resumeReady secret (some k) { b2 with status := none } fail =
      resumeReady secret (some k) { b2 with status := some (.jstr "completed") } fail) := by
  subst hks
  have hne : (sv == JVal.jstr "completed") = false := by simp [hsc]
  refine ⟨?_, fun hj => ?_, fun b2 => ?_⟩
  · obtain ⟨bu, btg, burl, bhr, bhrc, bjid, bst⟩ := b
    simp only at hbu hst
    subst hbu
    subst hst
    simp [resumeReady, parseStatus, truthyOpt, hsv, getD_truthy _
      (show truthyOpt (some sv) = true by simpa [truthyOpt] using hsv),
      hne, hk, hu, hf0]
  · refine ⟨"âŒ Resume generation failed for job ",
      ". Please try again or contact support.", ?_⟩
    simp [rrFailText, orNull_truthy, hj]
  · obtain ⟨u2, t2, r2, h2a, h2b, j2, s2⟩ := b2
    simp [resumeReady, parseStatus, parseHrEmail, truthyOpt, JVal.truthy]

/-- Witness for the amended C5 at `{userId:1, jobId:"J2", status:"failed"}`. -/
theorem rr_noncompleted_failure_notice_witness :
    resumeReady "s" (some "s")
        ⟨some (.jnum 1), none, none, none, none, some (.jstr "J2"),
          some (.jstr "failed")⟩ (fun _ => false) =
      ([.sendMessage (.jnum 1)
          (rrFailText (orNull (some (.jstr "J2"))))], ⟨200, .okTrue⟩) ∧
    (∃ p s, rrFailText (orNull (some (.jstr "J2"))) =
      p ++ (orNull (some (.jstr "J2"))).jsToString ++ s) ∧
    resumeReady "s" (some "s")
        ⟨some (.jnum 9), none, none, none, none, none, none⟩
        (fun _ => false) =
      resumeReady "s" (some "s")
        ⟨some (.jnum 9), none, none, none, none, none,
          some (.jstr "completed")⟩ (fun _ => false) := by
  obtain ⟨a, c, d⟩ := rr_noncompleted_failure_notice "s" "s" (.jnum 1)
    (.jstr "failed")
    ⟨some (.jnum 1), none, none, none, none, some (.jstr "J2"),
      some (.jstr "failed")⟩
    (by decide) rfl rfl (by decide) rfl (by decide) (by decide)
    (fun _ => false) rfl
  exact ⟨a, c (by decide),
    d ⟨some (.jnum 9), none, none, none, none, none, none⟩⟩

/-- C6: a `/resume-ready` request whose `x-api-key` header is missing, empty
or different from the backend secret is answered 403, with zero platform
sends and zero backend calls (the only action is a warning log). -/
theorem rr_bad_key_403 (secret : String) (key : Option String) (b : RRBody)
    (fail : Nat → Bool)
    (hkey : key.getD "" = "" ∨ key.getD "" ≠ secret) :
    (resumeReady secret key b fail).2 = ⟨403, .noBody⟩ ∧
    platformSends (resumeReady secret key b fail).1 = [] ∧
    backendCalls (resumeReady secret key b fail).1 = 0 := by
  have hc : ((key.getD "" == "") || !(key.getD "" == secret)) = true := by
    rcases hkey with h | h
    · simp [h]
    · simp [h]
  simp [resumeReady, hc, platformSends, backendCalls,
    Act.isPlatformSend, Act.isBackendCall]

/-- Witness for C6 with a wrong key. -/
theorem rr_bad_key_403_witness :
    (resumeReady "s" (some "wrong") RRBody.empty (fun _ => false)).2 =
      ⟨403, .noBody⟩ ∧
    platformSends (resumeReady "s" (some "wrong") RRBody.empty
      (fun _ => false)).1 = [] ∧
    backendCalls (resumeReady "s" (some "wrong") RRBody.empty
      (fun _ => false)).1 = 0 :=
  rr_bad_key_403 "s" (some "wrong") RRBody.empty (fun _ => false)
    (Or.inr (by decide))

/-- C7: a `/resume-ready` request with the correct key but no userId in the
body is answered 400 `{error:"missing userId"}`, with zero platform sends
and zero backend calls (the only action is a warning log). -/
theorem rr_missing_userId_400 (secret k : String) (b : RRBody)
    (fail : Nat → Bool) (hk : k ≠ "") (hks : k = secret)
    (hbu : b.userId = none) :
    (resumeReady secret (some k) b fail).2 =
      ⟨400, .errMsg "missing userId"⟩ ∧
    platformSends (resumeReady secret (some k) b fail).1 = [] ∧
    backendCalls (resumeReady secret (some k) b fail).1 = 0 := by
  subst hks
  simp [resumeReady, hk, hbu, JVal.truthy, platformSends, backendCalls,
    Act.isPlatformSend, Act.isBackendCall]

/-- Witness for C7. -/
theorem rr_missing_userId_400_witness :
    (resumeReady "s" (some "s") RRBody.empty (fun _ => false)).2 =
      ⟨400, .errMsg "missing userId"⟩ ∧
    platformSends (resumeReady "s" (some "s") RRBody.empty
      (fun _ => false)).1 = [] ∧
    backendCalls (resumeReady "s" (some "s") RRBody.empty
      (fun _ => false)).1 = 0 :=
  rr_missing_userId_400 "s" "s" RRBody.empty (fun _ => false)
    (by decide) rfl rfl

/-- C8: `/admin/resend` with correct key and present userId — no truthy file
reference gives 400 `{error:"no file provided"}` with no sends; otherwise
exactly one document send happens (`tgPdfId` preferred over `pdfUrl`, no
HR-contact or jobId follow-ups) with the caption defaulting to
`"Resent resume"`, giving 200 `{ok:true}`, and a throwing send gives 500
`{error:"failed"}` with no failure-notification message (each case's entire
trace is listed). -/
theorem ar_resend_behavior (secret k : String) (uid : JVal) (b : ARBody)
    (hk : k ≠ "") (hks : k = secret)
    (hbu : b.userId = some uid) (hu : uid.truthy = true)
    (fail : Nat → Bool) :
    (truthyOpt b.tgPdfId = false → truthyOpt b.pdfUrl = false →
      adminResend secret (some k) b fail =
        ([], ⟨400, .errMsg "no file provided"⟩)) ∧
    (truthyOpt b.tgPdfId = true → fail 0 = false →
      adminResend secret (some k) b fail =
        ([.sendDocument uid (b.tgPdfId.getD .jnull) (arCaption b.caption)],
         ⟨200, .okTrue⟩)) ∧
    (truthyOpt b.tgPdfId = true → fail 0 = true →
      adminResend secret (some k) b fail =
        ([.sendDocument uid (b.tgPdfId.getD .jnull) (arCaption b.caption),
          .logError "admin resend error"], ⟨500, .errMsg "failed"⟩)) ∧
    (truthyOpt b.tgPdfId = false → truthyOpt b.pdfUrl = true →
      fail 0 = false →
      adminResend secret (some k) b fail =
        ([.sendDocument uid (b.pdfUrl.getD .jnull) (arCaption b.caption)],
         ⟨200, .okTrue⟩)) ∧
    (truthyOpt b.tgPdfId = false → truthyOpt b.pdfUrl = true →
      fail 0 = true →
      adminResend secret (some k) b fail =
        ([.sendDocument uid (b.pdfUrl.getD .jnull) (arCaption b.caption),
          .logError "admin resend error"], ⟨500, .errMsg "failed"⟩)) ∧
    (b.caption = none → arCaption b.caption = .jstr "Resent resume") := by
  subst hks
  obtain ⟨bu, btg, burl, bcap⟩ := b
  simp only at hbu
  subst hbu
  refine ⟨fun h1 h2 => ?_, fun h1 h2 => ?_, fun h1 h2 => ?_,
    fun h1 h2 h3 => ?_, fun h1 h2 h3 => ?_, fun h1 => ?_⟩ <;>
    simp_all [adminResend, arCaption, truthyOpt, hk, hu]

/-- Witness for C8: resend by URL with default caption. -/
theorem ar_resend_behavior_witness :
    adminResend "s" (some "s")
        ⟨some (.jnum 3), none, some (.jstr "http://x/y.pdf"), none⟩
        (fun _ => false) =
      ([.sendDocument (.jnum 3) ((some (JVal.jstr "http://x/y.pdf")).getD .jnull)
          (arCaption none)], ⟨200, .okTrue⟩) ∧
    arCaption (none : Option JVal) = .jstr "Resent resume" := by
  obtain ⟨-, -, -, d, -, f⟩ := ar_resend_behavior "s" "s" (.jnum 3)
    ⟨some (.jnum 3), none, some (.jstr "http://x/y.pdf"), none⟩
    (by decide) rfl rfl (by decide) (fun _ => false)
  exact ⟨d rfl (by decide) rfl, f rfl⟩

/-- C9: when the Telegram webhook secret is configured (non-empty), a
request whose secret-token header is missing or different is answered 401
and the update is not processed; when the secret is unset, the check is
skipped, the update is always processed, and the response is 200 unless
processing throws, in which case it is 500. -/
theorem tgw_secret_check (tgSecret : String) (header : Option String)
    (pt : Bool) :
    (tgSecret ≠ "" → (header.getD "" = "" ∨ header.getD "" ≠ tgSecret) →
      (tgWebhook tgSecret header pt).2 = ⟨401, .noBody⟩ ∧
      Act.processUpdate ∉ (tgWebhook tgSecret header pt).1) ∧
    (tgSecret = "" →
      Act.processUpdate ∈ (tgWebhook tgSecret header pt).1 ∧
      (pt = false → (tgWebhook tgSecret header pt).2 = ⟨200, .noBody⟩) ∧
      (pt = true → (tgWebhook tgSecret header pt).2 = ⟨500, .noBody⟩)) := by
  constructor
  · intro hs hh
    have hc : ((header.getD "" == "") || !(header.getD "" == tgSecret)) = true := by
      rcases hh with h | h
      · simp [h]
      · simp [h]
    simp [tgWebhook, hs, hc]
  · intro hs
    subst hs
    cases pt <;> simp [tgWebhook, tgProcess]

/-- Witness for C9: a wrong header against a configured secret gives 401
with no processing; with the secret unset the update is processed and
answered 200. -/
theorem tgw_secret_check_witness :
    ((tgWebhook "sec" (some "bad") false).2 = ⟨401, .noBody⟩ ∧
      Act.processUpdate ∉ (tgWebhook "sec" (some "bad") false).1) ∧
    (Act.processUpdate ∈ (tgWebhook "" (some "bad") false).1 ∧
      (tgWebhook "" (some "bad") false).2 = ⟨200, .noBody⟩) := by
  refine ⟨(tgw_secret_check "sec" (some "bad") false).1 (by decide)
      (Or.inr (by decide)), ?_⟩
  obtain ⟨hmem, h200, -⟩ := (tgw_secret_check "" (some "bad") false).2 rfl
  exact ⟨hmem, h200 rfl⟩

/-- Any document send among the try-block steps carries the file id branch
actually taken: the truthy `tgPdfId`, or else the truthy `pdfUrl`. -/
theorem rrTryOps_doc_file (u tg url hr jid fv cap : JVal)
    (h : Act.sendDocument u fv cap ∈
      List.map TryOp.act (rrTryOps u tg url hr jid)) :
    (tg.truthy = true ∧ fv = tg) ∨
    (tg.truthy = false ∧ url.truthy = true ∧ fv = url) := by
  cases h1 : tg.truthy <;> cases h2 : url.truthy <;>
    cases h3 : hr.truthy <;> cases h4 : jid.truthy <;>
      simp_all [rrTryOps, TryOp.act]

/-- C10: when `tg_pdf_id` is the number 0, the parsing step assigns 0 to the
file identifier (through its explicit `=== 0` case) but the truthiness
branch treats it as absent: no document is ever sent with file id 0, and
delivery falls through to `pdf_url` when that is truthy, else to the
apology-message branch. -/
theorem rr_tgPdfId_zero (secret k : String) (uid : JVal) (b : RRBody)
    (hk : k ≠ "") (hks : k = secret)
    (hbu : b.userId = some uid) (hu : uid.truthy = true)
    (htg : b.tg_pdf_id = some (.jnum 0))
    (hst : b.status = some (.jstr "completed"))
    (fail : Nat → Bool) (hf : ∀ n, fail n = false) :
    parseTgPdfId b.tg_pdf_id = .jnum 0 ∧
    (JVal.jnum 0).truthy = false ∧
    (∀ cap, Act.sendDocument uid (.jnum 0) cap ∉
      (resumeReady secret (some k) b fail).1) ∧
    (truthyOpt b.pdf_url = true →
      (resumeReady secret (some k) b fail).1.head? =
        some (.sendDocument uid (orNull b.pdf_url)
          (rrCaption (parseHrEmail b)))) ∧
    (truthyOpt b.pdf_url = false →
      (resumeReady secret (some k) b fail).1.countP
        (fun a => a.isDocSend) = 0 ∧
      (resumeReady secret (some k) b fail).1.countP
        (fun a => a.isApology) = 1) := by
  subst hks
  obtain ⟨bu, btg, burl, bhr, bhrc, bjid, bst⟩ := b
  simp only at hbu htg hst
  subst hbu
  subst htg
  subst hst
  have hcpl : truthyOpt (some (JVal.jstr "completed")) = true := by decide
  have hptg : parseTgPdfId (some (JVal.jnum 0)) = .jnum 0 := by decide
  have hz : (JVal.jnum 0).truthy = false := by decide
  have htrace : (resumeReady k (some k)
      ⟨some uid, some (.jnum 0), burl, bhr, bhrc, bjid,
        some (.jstr "completed")⟩ fail).1 =
      List.map TryOp.act (rrTryOps uid (.jnum 0) (orNull burl)
        (parseHrEmail ⟨some uid, some (.jnum 0), burl, bhr, bhrc, bjid,
          some (.jstr "completed")⟩) (orNull bjid)) := by
    simp [resumeReady, parseStatus, hcpl, hk, hu, hptg,
      runTry_noFail fail hf]
  refine ⟨hptg, hz, fun cap hmem => ?_, fun h2 => ?_, fun h2 => ?_⟩
  · rw [htrace] at hmem
    rcases rrTryOps_doc_file _ _ _ _ _ _ _ hmem with ⟨h1, -⟩ | ⟨-, h1, hfv⟩
    · rw [hz] at h1
      exact absurd h1 (by simp)
    · rw [← hfv] at h1
      rw [hz] at h1
      exact absurd h1 (by simp)
  · rw [htrace]
    simp only at h2
    simp [rrTryOps, hz, orNull_truthy, h2, TryOp.act]
  · simp only at h2
    rw [htrace]
    constructor <;>
      · simp [rrTryOps, hz, orNull_truthy, h2, TryOp.act, parseHrEmail,
          Act.isDocSend, Act.isApology]
        try
          exact ⟨fun _ => append_ne_of_firstChar _ _ _ 'ð' 'â' rfl rfl (by decide),
                 fun _ => append_ne_of_firstChar _ _ _ 'J' 'â' rfl rfl (by decide)⟩

/-- Witness for C10: `tg_pdf_id = 0` with a pdf_url present. -/
theorem rr_tgPdfId_zero_witness :
    parseTgPdfId (some (.jnum 0)) = .jnum 0 ∧
    (resumeReady "s" (some "s")
        ⟨some (.jnum 4), some (.jnum 0), some (.jstr "http://x/y.pdf"),
          none, none, none, some (.jstr "completed")⟩
        (fun _ => false)).1.head? =
      some (.sendDocument (.jnum 4)
        (orNull (some (.jstr "http://x/y.pdf")))
        (rrCaption (parseHrEmail
          ⟨some (.jnum 4), some (.jnum 0), some (.jstr "http://x/y.pdf"),
            none, none, none, some (.jstr "completed")⟩))) := by
  obtain ⟨a, -, -, d, -⟩ := rr_tgPdfId_zero "s" "s" (.jnum 4)
    ⟨some (.jnum 4), some (.jnum 0), some (.jstr "http://x/y.pdf"),
      none, none, none, some (.jstr "completed")⟩
    (by decide) rfl rfl (by decide) rfl rfl (fun _ => false) (fun _ => rfl)
  exact ⟨a, d (by decide)⟩
